import Mathlib

/-!
Verification of the orchestration logic of `src/xray/src/bin/build_xray_tile.rs`
from the point_cloud_viewer repository.

The binary parses command-line configuration, intersects a requested 2D
rectangle with the 3D bounding box of the data source, derives raster pixel
dimensions from a physical resolution, selects a coloring strategy and a
background color, and invokes an external tile-generation routine.

Embedding choices:
  * `f64`/`f32` values are modelled as rationals (`ℚ`); the claims under
    study are about the algebraic structure of the computations (per-axis
    max/min intersection, ceiling division, saturating casts), not about
    binary floating-point rounding.
  * The saturating Rust float-to-`u32` cast (`as u32`) is modelled on the
    integer produced by `ceil` as clamping into `[0, 2^32 - 1]`.
  * `clap` argument matching is modelled by `RawArg` (a command-line value
    can be absent, present but not parseable as a number, or numeric) plus
    the declared `required` / `required_if` constraints of
    `parse_arguments`; `value_t!` is `value_t` below, and `.expect(...)` /
    the `?` operator become `Except String`.
  * The external generation routine `xray_from_points` only contributes its
    boolean result to the orchestration logic, so `run` takes that boolean
    as a parameter and records the arguments it would pass to the routine
    in a `GenCall` structure.
-/

/-- 2D point with rational coordinates, modelling `cgmath::Point2<f64>`. -/
structure Point2 where
  x : ℚ
  y : ℚ
deriving DecidableEq, Repr

/-- 3D point with rational coordinates, modelling `cgmath::Point3<f64>`. -/
structure Point3 where
  x : ℚ
  y : ℚ
  z : ℚ
deriving DecidableEq, Repr

/-- Axis-aligned 2D bounding box, modelling `collision::Aabb2<f64>`. -/
structure Aabb2 where
  min : Point2
  max : Point2
deriving DecidableEq, Repr

/-- Axis-aligned 3D bounding box, modelling `collision::Aabb3<f64>`. -/
structure Aabb3 where
  min : Point3
  max : Point3
deriving DecidableEq, Repr

/-- `Aabb2::dim()` from the `collision` crate: per-axis extent `max - min`. -/
def Aabb2.dim (b : Aabb2) : Point2 :=
  ⟨b.max.x - b.min.x, b.max.y - b.min.y⟩

/-- `Aabb2::new(p1, p2)` from the `collision` crate: the box spanned by two
corner points, normalized component-wise — `min` takes the smaller and
`max` the larger coordinate on each axis, whatever order the corners come
in. -/
def Aabb2.new (p1 p2 : Point2) : Aabb2 :=
  ⟨⟨Min.min p1.x p2.x, Min.min p1.y p2.y⟩,
   ⟨Max.max p1.x p2.x, Max.max p1.y p2.y⟩⟩

/-- `Aabb3::new(p1, p2)` from the `collision` crate: the box spanned by two
corner points, with the same component-wise normalization as `Aabb2::new`. -/
def Aabb3.new (p1 p2 : Point3) : Aabb3 :=
  ⟨⟨Min.min p1.x p2.x, Min.min p1.y p2.y, Min.min p1.z p2.z⟩,
   ⟨Max.max p1.x p2.x, Max.max p1.y p2.y, Max.max p1.z p2.z⟩⟩

/-- Modelled from the spec: the closed coloring-strategy variant set of
`xray::generation::ColoringStrategyKind` (that module is outside this
slice); `f32` payloads are rationals. -/
inductive ColoringStrategyKind where
  | XRay
  | Colored
  | ColoredWithIntensity (min_intensity max_intensity : ℚ)
  | ColoredWithHeightStddev (max_stddev : ℚ)
deriving DecidableEq, Repr

/-- Modelled from the spec: the command-line token enumeration
`xray::generation::ColoringStrategyArgument` (outside this slice). -/
inductive ColoringStrategyArgument where
  | xray
  | colored
  | colored_with_intensity
  | colored_with_height_stddev
deriving DecidableEq, Repr

/-- Modelled from the spec: the command-line token enumeration
`xray::generation::TileBackgroundColorArgument` (outside this slice). -/
inductive TileBackgroundColorArgument where
  | white
  | transparent
deriving DecidableEq, Repr

/-- 4-channel 8-bit color, modelling `point_viewer::color::Color<u8>`. -/
structure Color8 where
  red : ℕ
  green : ℕ
  blue : ℕ
  alpha : ℕ
deriving DecidableEq, Repr

/-- Modelled from the spec: `point_viewer::color::WHITE.to_u8()`, the opaque
white 4-channel 8-bit constant (that crate is outside this slice). -/
def WHITE_u8 : Color8 := ⟨255, 255, 255, 255⟩

/-- Modelled from the spec: `point_viewer::color::TRANSPARENT.to_u8()`, the
fully transparent 4-channel 8-bit constant (alpha 0). -/
def TRANSPARENT_u8 : Color8 := ⟨0, 0, 0, 0⟩

/-- The saturating Rust cast of a finite float to `u32`, applied to the
integer produced by `.ceil()`: negative values clamp to `0`, values above
`u32::MAX` clamp to `u32::MAX`. -/
def f64_as_u32 (i : ℤ) : ℕ :=
  min i.toNat 4294967295

/-- The intersection performed inline in `run` (build_xray_tile.rs lines
104–115): `Aabb3::new` applied to two corner points whose X/Y coordinates
are the per-axis `max`/`min` of the requested rectangle `bbox2` and the
client box `bbox3` and whose Z coordinates are copied from `bbox3`. Note
that `Aabb3::new` normalizes the corners, so when the per-axis
intersection would be empty the inverted axis is swapped back. -/
def resolved_volume (bbox2 : Aabb2) (bbox3 : Aabb3) : Aabb3 :=
  Aabb3.new
    ⟨max bbox2.min.x bbox3.min.x, max bbox2.min.y bbox3.min.y, bbox3.min.z⟩
    ⟨min bbox2.max.x bbox3.max.x, min bbox2.max.y bbox3.max.y, bbox3.max.z⟩

/-- `(bbox2.dim().x / resolution).ceil() as u32` (line 116). -/
def image_width (bbox2 : Aabb2) (resolution : ℚ) : ℕ :=
  f64_as_u32 (Int.ceil (bbox2.dim.x / resolution))

/-- `(bbox2.dim().y / resolution).ceil() as u32` (line 117). -/
def image_height (bbox2 : Aabb2) (resolution : ℚ) : ℕ :=
  f64_as_u32 (Int.ceil (bbox2.dim.y / resolution))

/-- The raster-sizing computation on one axis: extent over resolution,
ceiling, saturating cast to `u32`. -/
def raster_dim (extent resolution : ℚ) : ℕ :=
  f64_as_u32 (Int.ceil (extent / resolution))

/-- The wording of the spec of raster sizing (section 4.4): `ceil(extent /
resolution)` cast to a non-negative integer pixel count. Kept separate from
`raster_dim` so the saturating `u32` cast of the code can be compared with it. -/
def spec_raster_dim (extent resolution : ℚ) : ℕ :=
  (Int.ceil (extent / resolution)).toNat

/-- The arguments `run` hands to the external generation routine
`xray_from_points` (lines 118–126), minus the client handle and the output
path, which carry no data the claims mention. -/
structure GenCall where
  bbox3 : Aabb3
  image_width : ℕ
  image_height : ℕ
  strategy : ColoringStrategyKind
  tile_background_color : Color8
deriving DecidableEq, Repr

/-- What one execution of `run` produces: the generation call it made and
the lines it printed. -/
structure RunOutput where
  call : GenCall
  printed : List String
deriving DecidableEq, Repr

/-- The `run` function (lines 93–130). `client_bounding_box` stands for
`PointCloudClient::new(..)?` followed by `.bounding_box()`: constructing
the client can fail (the `?` propagates), and on success it reports the
union bounding box. `gen_result` is the boolean returned by the external
`xray_from_points`; when it is false the notice is printed. `run` always
returns `Ok` once the client exists. -/
def run (client_bounding_box : Except String Aabb3) (gen_result : Bool)
    (resolution : ℚ) (coloring_strategy_kind : ColoringStrategyKind)
    (tile_background_color : Color8) (bbox2 : Aabb2) :
    Except String RunOutput :=
  match client_bounding_box with
  | .error e => .error e
  | .ok b3 =>
    .ok ⟨⟨resolved_volume bbox2 b3,
          image_width bbox2 resolution,
          image_height bbox2 resolution,
          coloring_strategy_kind,
          tile_background_color⟩,
         if gen_result then []
         else ["No points in bounding box. No output written."]⟩

/-- A command-line value as seen after `clap` matching: never supplied,
supplied but not parseable as a number, or supplied and numeric. -/
inductive RawArg where
  | absent
  | nonNumeric
  | numeric (value : ℚ)
deriving DecidableEq, Repr

/-- `value_t!(matches, name, f64/f32)`: an `Err` both when the argument is
absent and when its value does not parse. -/
def value_t : RawArg → Except String ℚ
  | .absent => .error "argument not found"
  | .nonNumeric => .error "invalid value"
  | .numeric v => .ok v

/-- `Result::unwrap_or` specialised to `value_t` results. -/
def unwrap_or (e : Except String ℚ) (d : ℚ) : ℚ :=
  match e with
  | .ok v => v
  | .error _ => d

/-- The command line as matched by `clap`: one field per declared argument
of `parse_arguments` that carries data the claims mention.
`coloring_strategy` and `tile_background_color` are stored as their token
enumerations because `possible_values` already restricts them. -/
structure RawArgs where
  resolution : RawArg
  coloring_strategy : ColoringStrategyArgument
  min_intensity : RawArg
  max_intensity : RawArg
  max_stddev : RawArg
  min_x : RawArg
  min_y : RawArg
  max_x : RawArg
  max_y : RawArg
  tile_background_color : TileBackgroundColorArgument
  octree_locations : List String
deriving DecidableEq, Repr

/-- The presence constraints `parse_arguments` declares to `clap`:
`min_x`/`min_y`/`max_x`/`max_y` and `octree_locations` are `required`;
`min_intensity` and `max_intensity` are `required_if` the coloring
strategy is `colored_with_intensity`; `max_stddev` is `required_if` it is
`colored_with_height_stddev`. `get_matches()` aborts the process when any
constraint fails. -/
def get_matches_ok (a : RawArgs) : Bool :=
  a.min_x != .absent && a.min_y != .absent &&
  a.max_x != .absent && a.max_y != .absent &&
  !a.octree_locations.isEmpty &&
  (match a.coloring_strategy with
   | .colored_with_intensity =>
     a.min_intensity != .absent && a.max_intensity != .absent
   | .colored_with_height_stddev => a.max_stddev != .absent
   | _ => true)

/-- The `match arg` on the coloring-strategy token in `main` (lines
137–150): intensity and stddev parameters go through
`value_t!(..).unwrap_or(1.)`. -/
def coloring_strategy_kind_of (a : RawArgs) : ColoringStrategyKind :=
  match a.coloring_strategy with
  | .xray => .XRay
  | .colored => .Colored
  | .colored_with_intensity =>
    .ColoredWithIntensity (unwrap_or (value_t a.min_intensity) 1)
      (unwrap_or (value_t a.max_intensity) 1)
  | .colored_with_height_stddev =>
    .ColoredWithHeightStddev (unwrap_or (value_t a.max_stddev) 1)

/-- The `match arg` on the background token in `main` (lines 158–161). -/
def tile_background_color_of : TileBackgroundColorArgument → Color8
  | .white => WHITE_u8
  | .transparent => TRANSPARENT_u8

/-- Modelled from the spec: the `possible_values` token matching of `clap` for
`--tile_background_color` over `TileBackgroundColorArgument::variants()`
(the `variants()` list lives outside this slice); any token other than the
two variants fails configuration validation. -/
def tile_background_color_from_token (s : String) :
    Option TileBackgroundColorArgument :=
  if s = "white" then some .white
  else if s = "transparent" then some .transparent
  else none

/-- The configuration `main` assembles before calling `run`. -/
structure Config where
  resolution : ℚ
  coloring_strategy_kind : ColoringStrategyKind
  tile_background_color : Color8
  bbox2 : Aabb2
deriving DecidableEq, Repr

/-- The configuration phase of `main` (lines 133–176): `get_matches()`
aborts on a violated presence constraint; each `.expect(...)` on a
`value_t!` result aborts when that argument does not parse, in source
order (`resolution`, then after the infallible strategy/background
matches, `min_x`, `min_y`, `max_x`, `max_y`). No step checks the sign of
`resolution` or the ordering of the rectangle coordinates; line 174 then
builds the rectangle with `Aabb2::new`, whose corner normalization swaps
an inverted axis rather than rejecting it. -/
def main_config (a : RawArgs) : Except String Config :=
  if get_matches_ok a then
    match value_t a.resolution with
    | .error e => .error e
    | .ok resolution =>
      let coloring_strategy_kind := coloring_strategy_kind_of a
      let tile_background_color := tile_background_color_of a.tile_background_color
      match value_t a.min_x with
      | .error e => .error e
      | .ok min_x =>
        match value_t a.min_y with
        | .error e => .error e
        | .ok min_y =>
          match value_t a.max_x with
          | .error e => .error e
          | .ok max_x =>
            match value_t a.max_y with
            | .error e => .error e
            | .ok max_y =>
              .ok ⟨resolution, coloring_strategy_kind, tile_background_color,
                   Aabb2.new ⟨min_x, min_y⟩ ⟨max_x, max_y⟩⟩
  else .error "clap: required argument missing"

/-- The whole program: configuration, then `run`. The data source is only
touched inside `run` (the client is built there), so a configuration error
means no data-source access happened. -/
def main_program (a : RawArgs) (client_bounding_box : Except String Aabb3)
    (gen_result : Bool) : Except String RunOutput :=
  match main_config a with
  | .error e => .error e
  | .ok cfg =>
    run client_bounding_box gen_result cfg.resolution
      cfg.coloring_strategy_kind cfg.tile_background_color cfg.bbox2

/-! ## Helper lemmas -/

/-- Below the saturation bound, the saturating cast is `Int.toNat`. -/
lemma f64_as_u32_eq_toNat {i : ℤ} (h : i ≤ 4294967295) :
    f64_as_u32 i = i.toNat := by
  unfold f64_as_u32
  exact min_eq_left (by exact_mod_cast Int.toNat_le_toNat h)

/-- The saturating cast sends nonpositive integers to `0`. -/
lemma f64_as_u32_of_nonpos {i : ℤ} (h : i ≤ 0) : f64_as_u32 i = 0 := by
  unfold f64_as_u32
  rw [Int.toNat_of_nonpos h]
  simp

/-- The saturating cast is monotone. -/
lemma f64_as_u32_mono {i j : ℤ} (h : i ≤ j) : f64_as_u32 i ≤ f64_as_u32 j :=
  min_le_min (Int.toNat_le_toNat h) (le_refl _)

/-! ## Claims about the region resolver and raster sizing -/

/-- C1 counterexample: the per-axis formula fails for disjoint inputs
because `Aabb3::new` normalizes the corners. For the X-disjoint request
`A = (0,0)-(1,1)` against `B = (5,5,0)-(8,8,3)` the program volume is
`(1,1,0)-(5,5,3)`, whose `min.x = 1` is not `max(A.min.x, B.min.x) = 5`;
and for a source box inverted in Z, `B = (5,5,3)-(8,8,0)`, the volume has
`min.z = 0`, not `B.min.z = 3`. -/
theorem C1_counterexample :
    resolved_volume ⟨⟨0, 0⟩, ⟨1, 1⟩⟩ ⟨⟨5, 5, 0⟩, ⟨8, 8, 3⟩⟩ =
      ⟨⟨1, 1, 0⟩, ⟨5, 5, 3⟩⟩ ∧
    (resolved_volume ⟨⟨0, 0⟩, ⟨1, 1⟩⟩ ⟨⟨5, 5, 0⟩, ⟨8, 8, 3⟩⟩).min.x ≠
      max (0 : ℚ) 5 ∧
    (resolved_volume ⟨⟨0, 0⟩, ⟨10, 10⟩⟩ ⟨⟨5, 5, 3⟩, ⟨8, 8, 0⟩⟩).min.z ≠
      (3 : ℚ) := by
  norm_num [resolved_volume, Aabb3.new]

/-- C1 as amended: for every requested rectangle `A` (valid per axis) and
every data-source box `B` whose Z bounds are ordered and whose X/Y
intersection with `A` is nonempty per axis, the volume `run` passes to
generation is `resolved_volume A B`, whose X/Y bounds are the per-axis
`max` of the mins and `min` of the maxes and whose Z bounds are exactly
the Z bounds of `B` (for disjoint inputs `Aabb3::new` instead normalizes
the corners, see C7); on the concrete scenario `A = (0,0)-(10,10)`,
`B = (5,5,0)-(8,8,3)` the resolved volume is `(5,5,0)-(8,8,3)`. -/
theorem C1_resolved_volume (A : Aabb2) (B : Aabb3) (g : Bool) (r : ℚ)
    (s : ColoringStrategyKind) (bg : Color8)
    (hx : A.min.x ≤ A.max.x) (hy : A.min.y ≤ A.max.y)
    (hBz : B.min.z ≤ B.max.z)
    (hox : max A.min.x B.min.x ≤ min A.max.x B.max.x)
    (hoy : max A.min.y B.min.y ≤ min A.max.y B.max.y) :
    ((run (Except.ok B) g r s bg A).map (fun o => o.call.bbox3) =
      Except.ok (resolved_volume A B)) ∧
    (resolved_volume A B).min.x = max A.min.x B.min.x ∧
    (resolved_volume A B).min.y = max A.min.y B.min.y ∧
    (resolved_volume A B).max.x = min A.max.x B.max.x ∧
    (resolved_volume A B).max.y = min A.max.y B.max.y ∧
    (resolved_volume A B).min.z = B.min.z ∧
    (resolved_volume A B).max.z = B.max.z ∧
    resolved_volume ⟨⟨0, 0⟩, ⟨10, 10⟩⟩ ⟨⟨5, 5, 0⟩, ⟨8, 8, 3⟩⟩ =
      ⟨⟨5, 5, 0⟩, ⟨8, 8, 3⟩⟩ := by
  refine ⟨rfl, ?_, ?_, ?_, ?_, ?_, ?_, ?_⟩
  · exact min_eq_left hox
  · exact min_eq_left hoy
  · exact max_eq_right hox
  · exact max_eq_right hoy
  · exact min_eq_left hBz
  · exact max_eq_right hBz
  · norm_num [resolved_volume, Aabb3.new]

/-- Witness for C1 at the concrete scenario of the claim. -/
theorem C1_witness :
    (resolved_volume ⟨⟨0, 0⟩, ⟨10, 10⟩⟩ ⟨⟨5, 5, 0⟩, ⟨8, 8, 3⟩⟩).min.x =
      max (0 : ℚ) 5 :=
  (C1_resolved_volume ⟨⟨0, 0⟩, ⟨10, 10⟩⟩ ⟨⟨5, 5, 0⟩, ⟨8, 8, 3⟩⟩ true (1/20)
    .XRay WHITE_u8 (by norm_num) (by norm_num) (by norm_num) (by norm_num)
    (by norm_num)).2.1

/-- C2: for resolution `r > 0` the raster dimensions `run` passes to
generation are the ceilings of the requested-rectangle extents divided by
`r`, cast to non-negative integers — computed from the requested rectangle
`A` alone (the data-source box `B` is arbitrary and does not enter); the
scenario `A = (0,0)-(10,10)`, `r = 0.05` yields 200 x 200. -/
theorem C2_raster_from_request (A : Aabb2) (B : Aabb3) (g : Bool) (r : ℚ)
    (s : ColoringStrategyKind) (bg : Color8) (hr : 0 < r)
    (hw : Int.ceil (A.dim.x / r) ≤ 4294967295)
    (hh : Int.ceil (A.dim.y / r) ≤ 4294967295) :
    ((run (Except.ok B) g r s bg A).map
        (fun o => (o.call.image_width, o.call.image_height)) =
      Except.ok (spec_raster_dim A.dim.x r, spec_raster_dim A.dim.y r)) ∧
    image_width ⟨⟨0, 0⟩, ⟨10, 10⟩⟩ (1/20) = 200 ∧
    image_height ⟨⟨0, 0⟩, ⟨10, 10⟩⟩ (1/20) = 200 := by
  refine ⟨?_, ?_, ?_⟩
  · simp only [run, Except.map, image_width, image_height, spec_raster_dim,
      f64_as_u32_eq_toNat hw, f64_as_u32_eq_toNat hh]
  · norm_num [image_width, f64_as_u32, Aabb2.dim]
    rfl
  · norm_num [image_height, f64_as_u32, Aabb2.dim]
    rfl

/-- Witness for C2 at the concrete scenario of the claim. -/
theorem C2_witness : image_width ⟨⟨0, 0⟩, ⟨10, 10⟩⟩ (1/20) = 200 :=
  (C2_raster_from_request ⟨⟨0, 0⟩, ⟨10, 10⟩⟩ ⟨⟨5, 5, 0⟩, ⟨8, 8, 3⟩⟩ true (1/20)
    .XRay WHITE_u8 (by norm_num)
    (by norm_num [Aabb2.dim])
    (by norm_num [Aabb2.dim])).2.1

/-- C6: whenever the external generation routine reports `false`, `run`
prints the notice that no points were in the bounding box and no output
was written, and returns `Ok` (so the process exits 0). -/
theorem C6_no_points_is_success (B : Aabb3) (r : ℚ)
    (s : ColoringStrategyKind) (bg : Color8) (A : Aabb2) :
    run (Except.ok B) false r s bg A =
      Except.ok ⟨⟨resolved_volume A B, image_width A r, image_height A r, s, bg⟩,
        ["No points in bounding box. No output written."]⟩ :=
  rfl

/-- C7 counterexample: the request `A = (9,0)-(10,10)` is disjoint in X
from the source extent `B = (5,5,0)-(8,8,3)` (`B.max.x = 8 < 9 = A.min.x`),
yet the resolved box is the corner-normalized gap box `(8,5,0)-(9,8,3)` —
no axis is inverted, refuting the claimed `min > max` property. -/
theorem C7_counterexample :
    resolved_volume ⟨⟨9, 0⟩, ⟨10, 10⟩⟩ ⟨⟨5, 5, 0⟩, ⟨8, 8, 3⟩⟩ =
      ⟨⟨8, 5, 0⟩, ⟨9, 8, 3⟩⟩ ∧
    ¬((resolved_volume ⟨⟨9, 0⟩, ⟨10, 10⟩⟩ ⟨⟨5, 5, 0⟩, ⟨8, 8, 3⟩⟩).min.x >
        (resolved_volume ⟨⟨9, 0⟩, ⟨10, 10⟩⟩ ⟨⟨5, 5, 0⟩, ⟨8, 8, 3⟩⟩).max.x ∨
      (resolved_volume ⟨⟨9, 0⟩, ⟨10, 10⟩⟩ ⟨⟨5, 5, 0⟩, ⟨8, 8, 3⟩⟩).min.y >
        (resolved_volume ⟨⟨9, 0⟩, ⟨10, 10⟩⟩ ⟨⟨5, 5, 0⟩, ⟨8, 8, 3⟩⟩).max.y) := by
  norm_num [resolved_volume, Aabb3.new]

/-- C7 as amended: region resolution never fails — it is a total pure
function — but because `Aabb3::new` normalizes its corners the resolved
box never has an inverted axis: `min ≤ max` holds on X, Y and Z for all
inputs. For a requested rectangle strictly left of the source extent the
result is the normalized gap box between the two (`min.x = A.max.x`,
`max.x = B.min.x`); the box is passed on to generation like any other,
and an empty generation result is still handled as the no-points path
(`run` returns `Ok` with the notice), not as an error. -/
theorem C7_disjoint_normalized_gap_box (A : Aabb2) (B : Aabb3) (r : ℚ)
    (s : ColoringStrategyKind) (bg : Color8)
    (hax : A.min.x ≤ A.max.x) (hbx : B.min.x ≤ B.max.x)
    (hd : A.max.x < B.min.x) :
    (∀ A2 : Aabb2, ∀ B2 : Aabb3,
      (resolved_volume A2 B2).min.x ≤ (resolved_volume A2 B2).max.x ∧
      (resolved_volume A2 B2).min.y ≤ (resolved_volume A2 B2).max.y ∧
      (resolved_volume A2 B2).min.z ≤ (resolved_volume A2 B2).max.z) ∧
    (resolved_volume A B).min.x = A.max.x ∧
    (resolved_volume A B).max.x = B.min.x ∧
    (run (Except.ok B) false r s bg A).map (fun o => o.printed) =
      Except.ok ["No points in bounding box. No output written."] := by
  have h1 : max A.min.x B.min.x = B.min.x :=
    max_eq_right (le_of_lt (lt_of_le_of_lt hax hd))
  have h2 : min A.max.x B.max.x = A.max.x :=
    min_eq_left (le_trans (le_of_lt hd) hbx)
  refine ⟨fun A2 B2 => ⟨min_le_max, min_le_max, min_le_max⟩, ?_, ?_, rfl⟩
  · show Min.min (max A.min.x B.min.x) (min A.max.x B.max.x) = A.max.x
    rw [h1, h2]
    exact min_eq_right (le_of_lt hd)
  · show Max.max (max A.min.x B.min.x) (min A.max.x B.max.x) = B.min.x
    rw [h1, h2]
    exact max_eq_left (le_of_lt hd)

/-- Witness for C7: a rectangle entirely left of the source box resolves
to the gap box between the two. -/
theorem C7_witness :
    (resolved_volume ⟨⟨0, 0⟩, ⟨1, 1⟩⟩ ⟨⟨5, 5, 0⟩, ⟨8, 8, 3⟩⟩).min.x =
      (⟨⟨0, 0⟩, ⟨1, 1⟩⟩ : Aabb2).max.x :=
  (C7_disjoint_normalized_gap_box ⟨⟨0, 0⟩, ⟨1, 1⟩⟩ ⟨⟨5, 5, 0⟩, ⟨8, 8, 3⟩⟩
    (1/20) .XRay WHITE_u8 (by norm_num) (by norm_num) (by norm_num)).2.1

/-- C8 counterexample: at extent `2^33` and resolution `1` (both inside the
domain the claim quantifies over) the code computation saturates at
`u32::MAX = 4294967295`, which is not `ceil(extent / resolution) = 2^33`. -/
theorem C8_counterexample :
    raster_dim 8589934592 1 = 4294967295 ∧
    spec_raster_dim 8589934592 1 = 8589934592 ∧
    raster_dim 8589934592 1 ≠ spec_raster_dim 8589934592 1 := by
  have h1 : raster_dim 8589934592 1 = 4294967295 := by
    norm_num [raster_dim, f64_as_u32]
  have h2 : spec_raster_dim 8589934592 1 = 8589934592 := by
    norm_num [spec_raster_dim]
    rfl
  refine ⟨h1, h2, ?_⟩
  rw [h1, h2]
  norm_num

/-- C8 as amended: for `resolution > 0` and `extent ≥ 0` the raster sizing
equals `ceil(extent / resolution)` (cast to a non-negative integer)
whenever that ceiling is at most `u32::MAX` — the cast saturates there —
and doubling the extent at fixed resolution never decreases the pixel
count. -/
theorem C8_ceil_and_monotone (extent r : ℚ) (hr : 0 < r) (he : 0 ≤ extent)
    (hfit : Int.ceil (extent / r) ≤ 4294967295) :
    raster_dim extent r = spec_raster_dim extent r ∧
    raster_dim extent r ≤ raster_dim (2 * extent) r := by
  constructor
  · rw [raster_dim, spec_raster_dim, f64_as_u32_eq_toNat hfit]
  · apply f64_as_u32_mono
    apply Int.ceil_le_ceil
    rw [div_le_div_iff_of_pos_right hr]
    linarith

/-- Witness for C8 at extent 10, resolution 0.05. -/
theorem C8_witness :
    raster_dim 10 (1/20) = spec_raster_dim 10 (1/20) ∧
    raster_dim 10 (1/20) ≤ raster_dim (2 * 10) (1/20) :=
  C8_ceil_and_monotone 10 (1/20) (by norm_num) (by norm_num) (by norm_num)

/-! ## Helper lemmas about the configuration phase -/

/-- A run whose configuration phase fails never reaches `run` (and hence
never touches the data source), whatever the client would have reported. -/
lemma main_program_isOk_false (a : RawArgs)
    (h : (main_config a).isOk = false) (c : Except String Aabb3) (g : Bool) :
    (main_program a c g).isOk = false := by
  unfold main_program
  cases hc : main_config a with
  | error e => rfl
  | ok cfg => rw [hc] at h; cases h

/-- The configuration phase succeeds exactly when the `clap` presence
constraints hold and the five `.expect`-ed numeric arguments all parse. -/
lemma main_config_isOk_iff (a : RawArgs) :
    (main_config a).isOk = true ↔
      get_matches_ok a = true ∧
      (∃ v, a.resolution = .numeric v) ∧ (∃ v, a.min_x = .numeric v) ∧
      (∃ v, a.min_y = .numeric v) ∧ (∃ v, a.max_x = .numeric v) ∧
      (∃ v, a.max_y = .numeric v) := by
  obtain ⟨res, cs, mi, ma, ms, mnx, mny, mxx, mxy, tb, locs⟩ := a
  by_cases hok :
      get_matches_ok ⟨res, cs, mi, ma, ms, mnx, mny, mxx, mxy, tb, locs⟩ = true
  · cases res <;> cases mnx <;> cases mny <;> cases mxx <;> cases mxy <;>
      simp [main_config, value_t, hok, Except.isOk, Except.toBool]
  · simp [main_config, hok, Except.isOk, Except.toBool]

/-- If any of the five `.expect`-ed arguments was supplied but does not
parse as a number, the configuration phase fails. -/
lemma main_config_isOk_false_of_nonNumeric (a : RawArgs)
    (h : a.resolution = .nonNumeric ∨ a.min_x = .nonNumeric ∨
         a.min_y = .nonNumeric ∨ a.max_x = .nonNumeric ∨ a.max_y = .nonNumeric) :
    (main_config a).isOk = false := by
  rw [Bool.eq_false_iff]
  intro hok
  rw [main_config_isOk_iff] at hok
  obtain ⟨-, ⟨v1, e1⟩, ⟨v2, e2⟩, ⟨v3, e3⟩, ⟨v4, e4⟩, ⟨v5, e5⟩⟩ := hok
  rcases h with h | h | h | h | h <;> simp_all

/-- If a `clap` presence constraint is violated, the configuration phase
fails. -/
lemma main_config_isOk_false_of_get_matches (a : RawArgs)
    (h : get_matches_ok a = false) : (main_config a).isOk = false := by
  rw [Bool.eq_false_iff]
  intro hok
  rw [main_config_isOk_iff] at hok
  rw [h] at hok
  exact Bool.false_ne_true hok.1

/-- `required_if` on `min_intensity`: selecting `colored_with_intensity`
with `min_intensity` never supplied fails `get_matches`. -/
lemma get_matches_ok_false_min_intensity (a : RawArgs)
    (h1 : a.coloring_strategy = .colored_with_intensity)
    (h2 : a.min_intensity = .absent) : get_matches_ok a = false := by
  unfold get_matches_ok
  rw [h1, h2]
  simp

/-- `required_if` on `max_stddev`: selecting `colored_with_height_stddev`
with `max_stddev` never supplied fails `get_matches`. -/
lemma get_matches_ok_false_max_stddev (a : RawArgs)
    (h1 : a.coloring_strategy = .colored_with_height_stddev)
    (h2 : a.max_stddev = .absent) : get_matches_ok a = false := by
  unfold get_matches_ok
  rw [h1, h2]
  simp

/-- Evaluation of the configuration phase when the five `.expect`-ed
arguments are numeric and the presence constraints hold. -/
lemma main_config_numeric (cs : ColoringStrategyArgument) (mi ma ms : RawArg)
    (r q1 q2 q3 q4 : ℚ) (tb : TileBackgroundColorArgument) (locs : List String)
    (hok : get_matches_ok ⟨.numeric r, cs, mi, ma, ms, .numeric q1, .numeric q2,
      .numeric q3, .numeric q4, tb, locs⟩ = true) :
    main_config ⟨.numeric r, cs, mi, ma, ms, .numeric q1, .numeric q2,
      .numeric q3, .numeric q4, tb, locs⟩ =
      Except.ok ⟨r, coloring_strategy_kind_of ⟨.numeric r, cs, mi, ma, ms,
        .numeric q1, .numeric q2, .numeric q3, .numeric q4, tb, locs⟩,
        tile_background_color_of tb, Aabb2.new ⟨q1, q2⟩ ⟨q3, q4⟩⟩ := by
  simp [main_config, hok, value_t]

/-! ## Claims about configuration validation -/

/-- C3 counterexample: with `--resolution 0` (which parses, and is not
positive) the configuration phase succeeds and the run reaches `run` and
raster sizing; nothing rejects a non-positive resolution. -/
theorem C3_counterexample :
    main_config ⟨.numeric 0, .xray, .absent, .absent, .absent, .numeric 0,
        .numeric 0, .numeric 10, .numeric 10, .white, ["loc"]⟩ =
      Except.ok ⟨0, .XRay, WHITE_u8, ⟨⟨0, 0⟩, ⟨10, 10⟩⟩⟩ ∧
    (main_program ⟨.numeric 0, .xray, .absent, .absent, .absent, .numeric 0,
        .numeric 0, .numeric 10, .numeric 10, .white, ["loc"]⟩
      (Except.ok ⟨⟨5, 5, 0⟩, ⟨8, 8, 3⟩⟩) true).isOk = true :=
  ⟨rfl, rfl⟩

/-- C3 as amended: only a `--resolution` value that fails to parse as a
number is rejected (before any data-source access); a value that parses as
zero or negative is accepted and the run proceeds all the way through
raster sizing and the generation call. -/
theorem C3_nonpositive_resolution_accepted (r q1 q2 q3 q4 : ℚ)
    (mi ma ms : RawArg) (tb : TileBackgroundColorArgument) (locs : List String)
    (B : Aabb3) (g : Bool) (hr : r ≤ 0) (hlocs : locs ≠ []) :
    (∀ a : RawArgs, a.resolution = .nonNumeric →
      ∀ c g2, (main_program a c g2).isOk = false) ∧
    (main_program ⟨.numeric r, .xray, mi, ma, ms, .numeric q1, .numeric q2,
        .numeric q3, .numeric q4, tb, locs⟩ (Except.ok B) g).isOk = true := by
  constructor
  · intro a ha c g2
    exact main_program_isOk_false a
      (main_config_isOk_false_of_nonNumeric a (Or.inl ha)) c g2
  · have hok : get_matches_ok ⟨.numeric r, .xray, mi, ma, ms, .numeric q1,
        .numeric q2, .numeric q3, .numeric q4, tb, locs⟩ = true := by
      simp [get_matches_ok, hlocs]
    unfold main_program
    rw [main_config_numeric _ _ _ _ _ _ _ _ _ _ _ hok]
    rfl

/-- Witness for C3 as amended, at resolution zero. -/
theorem C3_witness :
    (main_program ⟨.numeric 0, .xray, .absent, .absent, .absent, .numeric 0,
        .numeric 0, .numeric 10, .numeric 10, .white, ["loc"]⟩
      (Except.ok ⟨⟨5, 5, 0⟩, ⟨8, 8, 3⟩⟩) true).isOk = true :=
  (C3_nonpositive_resolution_accepted 0 0 0 10 10 .absent .absent .absent
    .white ["loc"] ⟨⟨5, 5, 0⟩, ⟨8, 8, 3⟩⟩ true le_rfl (by simp)).2

/-- C4 counterexample: `--min_intensity` supplied with a non-numeric value
under `colored_with_intensity` is not rejected — the run proceeds to the
generation call with the silent fallback value `1.0`. -/
theorem C4_counterexample :
    (main_program ⟨.numeric (1/20), .colored_with_intensity, .nonNumeric,
        .numeric 5, .absent, .numeric 0, .numeric 0, .numeric 10, .numeric 10,
        .white, ["loc"]⟩ (Except.ok ⟨⟨5, 5, 0⟩, ⟨8, 8, 3⟩⟩) true).map
      (fun o => o.call.strategy) =
      Except.ok (.ColoredWithIntensity 1 5) :=
  rfl

/-- C4 as amended: a non-numeric value for `resolution`, `min_x`, `min_y`,
`max_x` or `max_y` aborts the run before any data-source access; but a
non-numeric value supplied for `min_intensity`, `max_intensity` or
`max_stddev` is not rejected — `value_t!(..).unwrap_or(1.)` silently
replaces it with `1.0` and the run proceeds. -/
theorem C4_nonNumeric_argument_handling (a : RawArgs) (c : Except String Aabb3)
    (g : Bool) (r q1 q2 q3 q4 : ℚ) (locs : List String) (B : Aabb3) (g2 : Bool)
    (h : a.resolution = .nonNumeric ∨ a.min_x = .nonNumeric ∨
         a.min_y = .nonNumeric ∨ a.max_x = .nonNumeric ∨ a.max_y = .nonNumeric)
    (hlocs : locs ≠ []) :
    (main_program a c g).isOk = false ∧
    ((main_program ⟨.numeric r, .colored_with_intensity, .nonNumeric,
        .nonNumeric, .absent, .numeric q1, .numeric q2, .numeric q3,
        .numeric q4, .white, locs⟩ (Except.ok B) g2).map
      (fun o => o.call.strategy) = Except.ok (.ColoredWithIntensity 1 1)) ∧
    ((main_program ⟨.numeric r, .colored_with_height_stddev, .absent, .absent,
        .nonNumeric, .numeric q1, .numeric q2, .numeric q3, .numeric q4,
        .white, locs⟩ (Except.ok B) g2).map
      (fun o => o.call.strategy) = Except.ok (.ColoredWithHeightStddev 1)) := by
  refine ⟨main_program_isOk_false a (main_config_isOk_false_of_nonNumeric a h) c g, ?_, ?_⟩
  · have hok : get_matches_ok ⟨.numeric r, .colored_with_intensity, .nonNumeric,
        .nonNumeric, .absent, .numeric q1, .numeric q2, .numeric q3,
        .numeric q4, .white, locs⟩ = true := by
      simp [get_matches_ok, hlocs]
    unfold main_program
    rw [main_config_numeric _ _ _ _ _ _ _ _ _ _ _ hok]
    rfl
  · have hok : get_matches_ok ⟨.numeric r, .colored_with_height_stddev, .absent,
        .absent, .nonNumeric, .numeric q1, .numeric q2, .numeric q3,
        .numeric q4, .white, locs⟩ = true := by
      simp [get_matches_ok, hlocs]
    unfold main_program
    rw [main_config_numeric _ _ _ _ _ _ _ _ _ _ _ hok]
    rfl

/-- Witness for C4 as amended: a non-numeric `--min_x` is rejected. -/
theorem C4_witness :
    (main_program ⟨.numeric (1/20), .xray, .absent, .absent, .absent,
        .nonNumeric, .numeric 0, .numeric 10, .numeric 10, .white, ["loc"]⟩
      (Except.ok ⟨⟨5, 5, 0⟩, ⟨8, 8, 3⟩⟩) true).isOk = false :=
  (C4_nonNumeric_argument_handling
    ⟨.numeric (1/20), .xray, .absent, .absent, .absent, .nonNumeric,
      .numeric 0, .numeric 10, .numeric 10, .white, ["loc"]⟩
    (Except.ok ⟨⟨5, 5, 0⟩, ⟨8, 8, 3⟩⟩) true (1/20) 0 0 10 10 ["loc"]
    ⟨⟨5, 5, 0⟩, ⟨8, 8, 3⟩⟩ true (Or.inr (Or.inl rfl)) (by simp)).1

/-- C5: selecting `colored_with_intensity` while never supplying
`min_intensity` and `max_intensity` is rejected deterministically by
configuration validation (the `required_if` constraints) before any
data-source access, and analogously for `colored_with_height_stddev`
without `max_stddev` — the rejection branch of the documented policy
applies. -/
theorem C5_missing_conditional_args_rejected (a a2 : RawArgs)
    (h1 : a.coloring_strategy = .colored_with_intensity)
    (h2 : a.min_intensity = .absent) (h3 : a.max_intensity = .absent)
    (h4 : a2.coloring_strategy = .colored_with_height_stddev)
    (h5 : a2.max_stddev = .absent) :
    (∀ c g, (main_program a c g).isOk = false) ∧
    (∀ c g, (main_program a2 c g).isOk = false) := by
  constructor
  · intro c g
    exact main_program_isOk_false a
      (main_config_isOk_false_of_get_matches a
        (get_matches_ok_false_min_intensity a h1 h2)) c g
  · intro c g
    exact main_program_isOk_false a2
      (main_config_isOk_false_of_get_matches a2
        (get_matches_ok_false_max_stddev a2 h4 h5)) c g

/-- Witness for C5 at a concrete command line. -/
theorem C5_witness :
    (main_program ⟨.numeric (1/20), .colored_with_intensity, .absent, .absent,
        .absent, .numeric 0, .numeric 0, .numeric 10, .numeric 10, .white,
        ["loc"]⟩ (Except.ok ⟨⟨5, 5, 0⟩, ⟨8, 8, 3⟩⟩) true).isOk = false :=
  (C5_missing_conditional_args_rejected
    ⟨.numeric (1/20), .colored_with_intensity, .absent, .absent, .absent,
      .numeric 0, .numeric 0, .numeric 10, .numeric 10, .white, ["loc"]⟩
    ⟨.numeric (1/20), .colored_with_height_stddev, .absent, .absent, .absent,
      .numeric 0, .numeric 0, .numeric 10, .numeric 10, .white, ["loc"]⟩
    rfl rfl rfl rfl rfl).1 (Except.ok ⟨⟨5, 5, 0⟩, ⟨8, 8, 3⟩⟩) true

/-- A successful configuration carries exactly the background constant the
token match in `main` selects; no other field of the command line (in
particular not the coloring strategy) enters. -/
lemma main_config_ok_background (a : RawArgs) (cfg : Config)
    (h : main_config a = Except.ok cfg) :
    cfg.tile_background_color = tile_background_color_of a.tile_background_color := by
  obtain ⟨res, cs, mi, ma, ms, mnx, mny, mxx, mxy, tb, locs⟩ := a
  by_cases hok :
      get_matches_ok ⟨res, cs, mi, ma, ms, mnx, mny, mxx, mxy, tb, locs⟩ = true
  · cases res <;> cases mnx <;> cases mny <;> cases mxx <;> cases mxy <;>
      simp [main_config, value_t, hok] at h <;> simp [← h]
  · simp [main_config, hok] at h

/-- C9: the background-color selection is a total function on the closed
token set — `white` yields the opaque white 4-channel 8-bit constant and
`transparent` the fully transparent one — it needs no numeric parameters,
a successful configuration uses it regardless of the coloring strategy,
and any other token fails `clap` token validation. -/
theorem C9_background_total_function (a : RawArgs) (cfg : Config) (s : String)
    (hc : main_config a = Except.ok cfg)
    (hs1 : s ≠ "white") (hs2 : s ≠ "transparent") :
    tile_background_color_of .white = WHITE_u8 ∧
    tile_background_color_of .transparent = TRANSPARENT_u8 ∧
    WHITE_u8 = ⟨255, 255, 255, 255⟩ ∧
    TRANSPARENT_u8 = ⟨0, 0, 0, 0⟩ ∧
    cfg.tile_background_color = tile_background_color_of a.tile_background_color ∧
    tile_background_color_from_token s = none := by
  refine ⟨rfl, rfl, rfl, rfl, main_config_ok_background a cfg hc, ?_⟩
  simp [tile_background_color_from_token, hs1, hs2]

/-- Witness for C9: the token `blue` is rejected, and the scenario
`--tile_background_color transparent` with strategy `xray`. -/
theorem C9_witness :
    tile_background_color_from_token "blue" = none :=
  (C9_background_total_function
    ⟨.numeric (1/20), .xray, .absent, .absent, .absent, .numeric 0, .numeric 0,
      .numeric 10, .numeric 10, .transparent, ["loc"]⟩
    ⟨1/20, .XRay, TRANSPARENT_u8, ⟨⟨0, 0⟩, ⟨10, 10⟩⟩⟩ "blue" rfl
    (by decide) (by decide)).2.2.2.2.2

/-- C10 counterexample: with `--min_x 10 --max_x 0` (inverted X) at
resolution `0.05` the configuration phase succeeds, but `Aabb2::new`
swaps the corners: the parsed rectangle is `(0,0)-(10,10)`, its raster
width is `200`, not `0`, and the run renders it normally (no empty-output
notice when generation finds points). -/
theorem C10_counterexample :
    main_config ⟨.numeric (1/20), .xray, .absent, .absent, .absent,
        .numeric 10, .numeric 0, .numeric 0, .numeric 10, .white, ["loc"]⟩ =
      Except.ok ⟨1/20, .XRay, WHITE_u8, ⟨⟨0, 0⟩, ⟨10, 10⟩⟩⟩ ∧
    image_width ⟨⟨0, 0⟩, ⟨10, 10⟩⟩ (1/20) = 200 ∧
    image_width ⟨⟨0, 0⟩, ⟨10, 10⟩⟩ (1/20) ≠ 0 ∧
    ((main_program ⟨.numeric (1/20), .xray, .absent, .absent, .absent,
        .numeric 10, .numeric 0, .numeric 0, .numeric 10, .white, ["loc"]⟩
      (Except.ok ⟨⟨5, 5, 0⟩, ⟨8, 8, 3⟩⟩) true).map
        (fun o => (o.call.image_width, o.printed)) =
      Except.ok (200, [])) := by
  have hw : image_width ⟨⟨0, 0⟩, ⟨10, 10⟩⟩ (1/20) = 200 := by
    norm_num [image_width, f64_as_u32, Aabb2.dim]
    rfl
  refine ⟨rfl, hw, by rw [hw]; norm_num, ?_⟩
  show Except.ok (image_width (Aabb2.new ⟨10, 0⟩ ⟨0, 10⟩) (1/20), ([] : List String)) =
    Except.ok (200, ([] : List String))
  have hbox : Aabb2.new ⟨10, 0⟩ ⟨0, 10⟩ = (⟨⟨0, 0⟩, ⟨10, 10⟩⟩ : Aabb2) := by
    norm_num [Aabb2.new]
  rw [hbox, hw]

/-- C10 as amended: the rectangle ordering is indeed never validated and
an inverted command line does not panic; but rather than flowing through
as a negative extent, `Aabb2::new` at line 174 normalizes the corners, so
the parsed rectangle always satisfies `min ≤ max`, its extent is
non-negative, and the run renders the normalized rectangle with its full
raster size (the inverted `min_x = 10, max_x = 0` request at resolution
`0.05` gets width `200`, the same as the un-inverted one), not a width of
`0` and the empty-output path. -/
theorem C10_inverted_rectangle_normalized (mnx mny mxx mxy r : ℚ)
    (mi ma ms : RawArg) (tb : TileBackgroundColorArgument)
    (locs : List String) (hinv : mxx < mnx) (hlocs : locs ≠ []) :
    ((main_config ⟨.numeric r, .xray, mi, ma, ms, .numeric mnx, .numeric mny,
        .numeric mxx, .numeric mxy, tb, locs⟩).map (fun cfg => cfg.bbox2) =
      Except.ok (Aabb2.new ⟨mnx, mny⟩ ⟨mxx, mxy⟩)) ∧
    (Aabb2.new ⟨mnx, mny⟩ ⟨mxx, mxy⟩).min.x = mxx ∧
    (Aabb2.new ⟨mnx, mny⟩ ⟨mxx, mxy⟩).max.x = mnx ∧
    0 ≤ (Aabb2.new ⟨mnx, mny⟩ ⟨mxx, mxy⟩).dim.x ∧
    image_width (Aabb2.new ⟨10, 0⟩ ⟨0, 10⟩) (1/20) = 200 := by
  have hok : get_matches_ok ⟨.numeric r, .xray, mi, ma, ms, .numeric mnx,
      .numeric mny, .numeric mxx, .numeric mxy, tb, locs⟩ = true := by
    simp [get_matches_ok, hlocs]
  refine ⟨?_, min_eq_right (le_of_lt hinv), max_eq_left (le_of_lt hinv),
    ?_, ?_⟩
  · rw [main_config_numeric _ _ _ _ _ _ _ _ _ _ _ hok]
    rfl
  · show (0 : ℚ) ≤ Max.max mnx mxx - Min.min mnx mxx
    have := min_le_max (a := mnx) (b := mxx)
    linarith
  · have hbox : Aabb2.new ⟨10, 0⟩ ⟨0, 10⟩ = (⟨⟨0, 0⟩, ⟨10, 10⟩⟩ : Aabb2) := by
      norm_num [Aabb2.new]
    rw [hbox]
    norm_num [image_width, f64_as_u32, Aabb2.dim]
    rfl

/-- Witness for C10: the inverted request `min_x = 10, max_x = 0`. -/
theorem C10_witness :
    (Aabb2.new ⟨10, 0⟩ ⟨0, 10⟩).min.x = 0 ∧
    (Aabb2.new ⟨10, 0⟩ ⟨0, 10⟩).max.x = 10 :=
  ⟨(C10_inverted_rectangle_normalized 10 0 0 10 (1/20) .absent .absent
      .absent .white ["loc"] (by norm_num) (by simp)).2.1,
   (C10_inverted_rectangle_normalized 10 0 0 10 (1/20) .absent .absent
      .absent .white ["loc"] (by norm_num) (by simp)).2.2.1⟩
